import Mathlib

/-!
# PANGU flight-file editor: the `pan_protocol` binding surface

The repository consists of two C/C++ files: `pan_protocol_lib_bindings.h`, a
list of two typedefs and the prototypes of the `pan_protocol_*` functions, and
`pan_protocol_lib.cpp`, a placeholder.  Neither file has executable code: the
program *is* its declarations.  The embedding therefore keeps both files as
text, line by line, and reads them with a small C front end written here
(comment removal, line classification, tokens, declarations), so that every
statement below is about what the two files contain.
-/

set_option maxRecDepth 100000
set_option maxHeartbeats 4000000

namespace PanProtocol

/-! ## The two source files -/

/-- The file `pan_protocol_lib_bindings.h`, one string per line (12 lines; the
last one has no terminating newline). -/
def bindingsHeader : List String := [
  "typedef unsigned long long UINT_PTR;",
  "typedef UINT_PTR SOCKET;",
  "",
  "void pan_protocol_safety_checks(void);",
  "void pan_protocol_start(SOCKET);",
  "void pan_protocol_finish(SOCKET);",
  "unsigned char *pan_protocol_get_image(SOCKET, unsigned long *);",
  "void pan_protocol_set_viewpoint_by_angle(SOCKET, float, float, float, float, float, float);",
  "void pan_protocol_set_viewpoint_by_quaternion_s(SOCKET s, float x, float y, float z, float q0, float q1, float q2, float q3);",
  "void pan_protocol_set_field_of_view(SOCKET s, float f);",
  "unsigned char *pan_protocol_get_viewpoint_by_degrees_d(SOCKET, double, double, double, double, double, double, unsigned long *);",
  "unsigned char *pan_protocol_get_viewpoint_by_quaternion_s(SOCKET, float, float, float, float, float, float, float, unsigned long *);"
]

/-- The file `pan_protocol_lib.cpp`, one string per line (12 lines, the last
one empty). -/
def placeholderSource : List String := [
  "/*",
  " * This is a placeholder file.",
  " * The actual implementation of the functions declared in pan_protocol_lib.h ",
  " * should be provided by the user to build a functional library.",
  " * This file is included to make the provided build scripts runnable without errors.",
  " */",
  "#include \"pan_protocol_lib.h\"",
  "",
  "// The user must provide the full implementation of all functions.",
  "// Example:",
  "// void pan_protocol_safety_checks(void) \x7b /* ... implementation ... */ \x7d",
  ""
]

/-- Name under which the header is stored in the repository. -/
def bindingsHeaderName : String := "pan_protocol_lib_bindings.h"

/-! ## Comment removal -/

/-- Where the scanner stands between two characters. -/
inductive Scan
  | code
  | blockComment
  | stringLit
deriving DecidableEq, Repr

/-- Remove the comments of one line.  The scanner starts in state `st`; the
result is the text outside comments (a block comment that ends on the line
leaves one blank, as in translation phase 3) and the state at the end of the
line.  A `//` comment and a string literal end with the line; inside a string
literal a backslash takes the next character with it. -/
def stripLine : Scan → List Char → List Char × Scan
  | Scan.code, [] => ([], Scan.code)
  | Scan.stringLit, [] => ([], Scan.code)
  | Scan.blockComment, [] => ([], Scan.blockComment)
  | Scan.blockComment, [_] => ([], Scan.blockComment)
  | Scan.blockComment, c :: d :: rest =>
      if c = '*' ∧ d = '/' then
        let r := stripLine Scan.code rest
        (' ' :: r.1, r.2)
      else stripLine Scan.blockComment (d :: rest)
  | Scan.stringLit, [c] => ([c], Scan.code)
  | Scan.stringLit, c :: d :: rest =>
      if c = '\\' then
        let r := stripLine Scan.stringLit rest
        (c :: d :: r.1, r.2)
      else if c = '"' then
        let r := stripLine Scan.code (d :: rest)
        (c :: r.1, r.2)
      else
        let r := stripLine Scan.stringLit (d :: rest)
        (c :: r.1, r.2)
  | Scan.code, [c] => ([c], Scan.code)
  | Scan.code, c :: d :: rest =>
      if c = '/' ∧ d = '*' then stripLine Scan.blockComment rest
      else if c = '/' ∧ d = '/' then ([], Scan.code)
      else if c = '"' then
        let r := stripLine Scan.stringLit (d :: rest)
        (c :: r.1, r.2)
      else
        let r := stripLine Scan.code (d :: rest)
        (c :: r.1, r.2)

/-- Remove the comments of a whole file, line by line, carrying the scanner
state from one line to the next. -/
def stripLines : Scan → List (List Char) → List (List Char)
  | _, [] => []
  | st, l :: ls => (stripLine st l).1 :: stripLines (stripLine st l).2 ls

/-- The text of each line of a file that is outside comments. -/
def uncommented (file : List String) : List (List Char) :=
  stripLines Scan.code (file.map String.toList)

/-! ## Lines -/

/-- What a line of a source file holds. -/
inductive LineKind
  | blank
  | comment
  | directive
  | code
deriving DecidableEq, Repr

/-- A line with white space only. -/
def isBlank (l : List Char) : Bool := l.all Char.isWhitespace

/-- Classify a line from its text and from what is left of it outside
comments: a non-blank line with nothing outside comments lies inside a comment;
a line whose first character outside comments is `#` is a preprocessor
directive; any other non-blank line is code. -/
def classify (raw stripped : List Char) : LineKind :=
  if isBlank raw then LineKind.blank
  else if isBlank stripped then LineKind.comment
  else if (stripped.dropWhile Char.isWhitespace).head? = some '#' then LineKind.directive
  else LineKind.code

/-- The kind of every line of a file, in order. -/
def lineKinds (file : List String) : List LineKind :=
  List.zipWith classify (file.map String.toList) (uncommented file)

/-- The lines of a file of a given kind, comments removed. -/
def linesOfKind (k : LineKind) (file : List String) : List (List Char) :=
  ((List.zip (lineKinds file) (uncommented file)).filter (fun p => p.1 = k)).map Prod.snd

/-! ## Tokens -/

/-- Preprocessing tokens, as far as the two files need them. -/
inductive Token
  | word (s : String)
  | sym (c : Char)
  | str (s : String)
deriving DecidableEq, Repr

/-- Characters of identifiers, keywords and numbers. -/
def isWordChar (c : Char) : Bool := c.isAlphanum || c = '_'

/-- The word collected so far (in reverse), as a token. -/
def flushWord (cur : List Char) : List Token :=
  if cur.isEmpty then [] else [Token.word (String.mk cur.reverse)]

/-- Tokenizer.  `inStr` tells whether the scanner is inside a string literal,
`cur` holds the characters of the current word or string, latest first. -/
def lexAux : Bool → List Char → List Char → List Token
  | true, cur, [] => [Token.str (String.mk cur.reverse)]
  | false, cur, [] => flushWord cur
  | true, cur, c :: rest =>
      if c = '"' then Token.str (String.mk cur.reverse) :: lexAux false [] rest
      else lexAux true (c :: cur) rest
  | false, cur, c :: rest =>
      if c = '"' then flushWord cur ++ lexAux true [] rest
      else if isWordChar c then lexAux false (c :: cur) rest
      else if c.isWhitespace then flushWord cur ++ lexAux false [] rest
      else flushWord cur ++ Token.sym c :: lexAux false [] rest

/-- Tokens of a piece of text. -/
def lex (l : List Char) : List Token := lexAux false [] l

/-- Tokens of the code lines of a file: what the compiler proper sees of the
file itself. -/
def codeTokens (file : List String) : List Token :=
  ((linesOfKind LineKind.code file).map lex).flatten

/-- Tokens of each preprocessor directive of a file. -/
def directives (file : List String) : List (List Token) :=
  (linesOfKind LineKind.directive file).map lex

/-- The file named by an include directive with a quoted name. -/
def includeTarget : List Token → Option String
  | [Token.sym '#', Token.word "include", Token.str f] => some f
  | _ => none

/-- The files a file includes with a quoted name. -/
def includes (file : List String) : List String :=
  (directives file).filterMap includeTarget

/-! ## Types and declarations -/

/-- C types as they are written: a list of type specifier keywords, a typedef
name, or a pointer. -/
inductive CType
  | base (specifiers : List String)
  | named (name : String)
  | pointer (pointee : CType)
deriving DecidableEq, Repr

/-- One parameter of a prototype: its type and, where the prototype gives one,
its name. -/
structure Param where
  type : CType
  name : Option String
deriving DecidableEq, Repr

/-- One function declaration: return type, name, parameters, whether it stands
inside an `extern "C"` linkage specification, and whether it has a body. -/
structure FunDecl where
  ret : CType
  name : String
  params : List Param
  externC : Bool
  hasBody : Bool
deriving DecidableEq, Repr

/-- One typedef: the new name and the type it stands for. -/
structure Typedef where
  name : String
  type : CType
deriving DecidableEq, Repr

/-- A declaration at file scope. -/
inductive Item
  | typedef (t : Typedef)
  | function (f : FunDecl)
deriving DecidableEq, Repr

/-- Keywords that are type specifiers. -/
def typeKeywords : List String :=
  ["void", "char", "short", "int", "long", "float", "double", "signed", "unsigned"]

/-- Keywords that cannot be a typedef name and that this front end does not
read as part of a type. -/
def otherKeywords : List String :=
  ["typedef", "extern", "static", "inline", "const", "volatile", "struct", "union",
   "enum", "class", "namespace", "template", "return"]

/-- The leading run of type specifier keywords of a token list, and the rest. -/
def takeSpecifiers : List Token → List String × List Token
  | Token.word w :: rest =>
      if w ∈ typeKeywords then ((w :: (takeSpecifiers rest).1), (takeSpecifiers rest).2)
      else ([], Token.word w :: rest)
  | ts => ([], ts)

/-- Wrap a type in one pointer for each leading `*`. -/
def takeStars : CType → List Token → CType × List Token
  | t, Token.sym c :: rest =>
      if c = '*' then takeStars (CType.pointer t) rest else (t, Token.sym c :: rest)
  | t, ts => (t, ts)

/-- Read a type at the start of a token list: specifier keywords or one typedef
name, then any number of `*`.  Returns the type and the tokens after it. -/
def parseType (ts : List Token) : Option (CType × List Token) :=
  match takeSpecifiers ts with
  | ([], Token.word n :: rest) =>
      if n ∈ otherKeywords then none else some (takeStars (CType.named n) rest)
  | ([], _) => none
  | (specs, rest) => some (takeStars (CType.base specs) rest)

/-- Split a token list at its commas; `cur` holds the current piece, latest
token first. -/
def splitCommas : List Token → List Token → List (List Token)
  | cur, [] => [cur.reverse]
  | cur, t :: ts =>
      if t = Token.sym ',' then cur.reverse :: splitCommas [] ts
      else splitCommas (t :: cur) ts

/-- Read one parameter: a type and an optional name. -/
def parseParam (ts : List Token) : Option Param :=
  match parseType ts with
  | some (t, []) => some ⟨t, none⟩
  | some (t, [Token.word n]) => some ⟨t, some n⟩
  | _ => none

/-- All the values of a list of options, if none is missing. -/
def allSome {α : Type} : List (Option α) → Option (List α)
  | [] => some []
  | none :: _ => none
  | some a :: rest =>
      match allSome rest with
      | some as => some (a :: as)
      | none => none

/-- Read a parameter list (the tokens between the parentheses).  An empty list
and the list `void` declare no parameter.  Nested parentheses (function
pointers) are not read. -/
def parseParams (ts : List Token) : Option (List Param) :=
  if ts = [] ∨ ts = [Token.word "void"] then some []
  else if Token.sym '(' ∈ ts ∨ Token.sym ')' ∈ ts then none
  else allSome ((splitCommas [] ts).map parseParam)

/-- A file-scope item as the splitter finds it: the tokens before the `;` or
before the body, the tokens of the body if there is one, and whether the item
stands inside an `extern "C" { }` block. -/
structure RawItem where
  head : List Token
  body : Option (List Token)
  inLinkageBlock : Bool
deriving DecidableEq, Repr

/-- Cut the tokens of a file into file-scope items.  `linkage` tells whether an
`extern "C" { }` block is open, `depth` is the brace depth inside a body,
`head` and `body` collect the current item, latest token first.  The result is
`none` on unbalanced braces or on tokens after the last terminator. -/
def splitItems : Bool → Nat → List Token → List Token → List Token → Option (List RawItem)
  | linkage, depth, head, _, [] =>
      if linkage = false ∧ depth = 0 ∧ head = [] then some [] else none
  | linkage, 0, head, body, t :: ts =>
      if t = Token.sym ';' then
        if head = [] then splitItems linkage 0 [] [] ts
        else (splitItems linkage 0 [] [] ts).map (fun r => ⟨head.reverse, none, linkage⟩ :: r)
      else if t = Token.sym '\x7b' then
        if head.reverse = [Token.word "extern", Token.str "C"] then
          if linkage then none else splitItems true 0 [] [] ts
        else splitItems linkage 1 head [] ts
      else if t = Token.sym '\x7d' then
        if linkage = true ∧ head = [] then splitItems false 0 [] [] ts else none
      else splitItems linkage 0 (t :: head) body ts
  | linkage, d + 1, head, body, t :: ts =>
      if t = Token.sym '\x7b' then splitItems linkage (d + 2) head (t :: body) ts
      else if t = Token.sym '\x7d' then
        if d = 0 then
          (splitItems linkage 0 [] [] ts).map (fun r => ⟨head.reverse, some body.reverse, linkage⟩ :: r)
        else splitItems linkage d head (t :: body) ts
      else splitItems linkage (d + 1) head (t :: body) ts

/-- The tokens of a declarator `name ( parameters )`. -/
def parseDeclarator : List Token → Option (String × List Param)
  | Token.word n :: Token.sym '(' :: rest =>
      if rest.getLast? = some (Token.sym ')') then
        (parseParams rest.dropLast).map (fun ps => (n, ps))
      else none
  | _ => none

/-- Read a function declaration or definition from the tokens before its `;`
or body. -/
def parseFunction (externC hasBody : Bool) (ts : List Token) : Option FunDecl :=
  match parseType ts with
  | some (ret, rest) =>
      (parseDeclarator rest).map (fun d => ⟨ret, d.1, d.2, externC, hasBody⟩)
  | none => none

/-- Read one file-scope item: a typedef of a name, or a function declaration,
possibly introduced by `extern "C"` or by `extern`. -/
def parseItem (r : RawItem) : Option Item :=
  match r.head with
  | Token.word "typedef" :: rest =>
      match r.body, parseType rest with
      | none, some (t, [Token.word n]) => some (Item.typedef ⟨n, t⟩)
      | _, _ => none
  | Token.word "extern" :: Token.str "C" :: rest =>
      (parseFunction true r.body.isSome rest).map Item.function
  | Token.word "extern" :: rest =>
      (parseFunction r.inLinkageBlock r.body.isSome rest).map Item.function
  | ts => (parseFunction r.inLinkageBlock r.body.isSome ts).map Item.function

/-- The file-scope declarations of a file, or `none` if the file has
something this front end does not read. -/
def parseFile (file : List String) : Option (List Item) :=
  match splitItems false 0 [] [] (codeTokens file) with
  | some raw => allSome (raw.map parseItem)
  | none => none

/-- The function declarations among a list of items. -/
def functionsOf : List Item → List FunDecl
  | [] => []
  | Item.function f :: rest => f :: functionsOf rest
  | Item.typedef _ :: rest => functionsOf rest

/-- The typedefs among a list of items. -/
def typedefsOf : List Item → List Typedef
  | [] => []
  | Item.typedef t :: rest => t :: typedefsOf rest
  | Item.function _ :: rest => typedefsOf rest

/-- The functions a file declares (none if the file cannot be read). -/
def declaredFunctions (file : List String) : List FunDecl :=
  functionsOf ((parseFile file).getD [])

/-- The typedefs a file declares (none if the file cannot be read). -/
def declaredTypedefs (file : List String) : List Typedef :=
  typedefsOf ((parseFile file).getD [])

/-! ## The types of the header and what is asked of a declaration -/

/-- The type `void`. -/
def CType.void : CType := CType.base ["void"]

/-- The type `float`. -/
def CType.float : CType := CType.base ["float"]

/-- The type `double`. -/
def CType.double : CType := CType.base ["double"]

/-- The type `unsigned long long`. -/
def CType.unsignedLongLong : CType := CType.base ["unsigned", "long", "long"]

/-- The type `unsigned char *`. -/
def CType.unsignedCharPtr : CType := CType.pointer (CType.base ["unsigned", "char"])

/-- The type `unsigned long *`. -/
def CType.unsignedLongPtr : CType := CType.pointer (CType.base ["unsigned", "long"])

/-- The typedef name `UINT_PTR`, used as a type. -/
def UINT_PTR : CType := CType.named "UINT_PTR"

/-- The typedef name `SOCKET`, used as a type. -/
def SOCKET : CType := CType.named "SOCKET"

/-- Replace one typedef name by the type it stands for. -/
def expandTypedef (td : Typedef) : CType → CType
  | CType.named n => if n = td.name then td.type else CType.named n
  | CType.pointer p => CType.pointer (expandTypedef td p)
  | CType.base s => CType.base s

/-- The type a type resolves to under a list of typedefs given in declaration
order: the latest typedef is expanded first, since a typedef can only use the
names declared before it. -/
def resolve (tds : List Typedef) (t : CType) : CType :=
  tds.foldr expandTypedef t

/-- Integer types: written with the integer specifier keywords only. -/
def isInteger : CType → Bool
  | CType.base specs =>
      !specs.isEmpty && specs.all (fun w => w ∈ ["char", "short", "int", "long", "signed", "unsigned"])
  | _ => false

/-- Unsigned integer types. -/
def isUnsigned (t : CType) : Bool :=
  match t with
  | CType.base specs => isInteger t && specs.contains "unsigned"
  | _ => false

/-- Floating-point types. -/
def isFloating : CType → Bool
  | CType.base specs => specs = ["float"] ∨ specs = ["double"] ∨ specs = ["long", "double"]
  | _ => false

/-- Pointer types. -/
def isPointer : CType → Bool
  | CType.pointer _ => true
  | _ => false

/-- The values an integer type of `bits` bits holds: `0 .. 2^bits - 1` when it
is unsigned, `-2^(bits-1) .. 2^(bits-1) - 1` when it is signed; a type that is
not an integer type holds no integer. -/
def holds (bits : Nat) (t : CType) (v : Int) : Prop :=
  if isUnsigned t then 0 ≤ v ∧ v < 2 ^ bits
  else if isInteger t then -(2 ^ (bits - 1)) ≤ v ∧ v < 2 ^ (bits - 1)
  else False

/-- The types of the parameters of a declaration, in order. -/
def paramTypes (d : FunDecl) : List CType := d.params.map Param.type

/-- The type of the first parameter, if there is one. -/
def firstParamType (d : FunDecl) : Option CType := (paramTypes d).head?

/-- The type of the last parameter, if there is one. -/
def lastParamType (d : FunDecl) : Option CType := (paramTypes d).getLast?

/-- The floating-point parameters of a declaration. -/
def floatingParams (d : FunDecl) : List CType := (paramTypes d).filter isFloating

/-- The language a translation unit is compiled as. -/
inductive Language
  | c
  | cpp
deriving DecidableEq, Repr

/-- Language linkage of a function declaration in a translation unit of
language `tu`: a declaration inside an `extern "C"` specification has C
linkage, any other one has the linkage of the language of the unit. -/
def languageLinkage (tu : Language) (d : FunDecl) : Language :=
  if d.externC then Language.c else tu

/-- The functions a file defines: its declarations that have a body. -/
def definedFunctions (file : List String) : List FunDecl :=
  (declaredFunctions file).filter (fun d => d.hasBody)

/-- The source files of the repository. -/
def repository : List (List String) := [bindingsHeader, placeholderSource]

/-- The functions defined anywhere in the repository. -/
def definedInRepository : List FunDecl := (repository.map definedFunctions).flatten

/-- The declaration of a given name in the header. -/
def findDecl (n : String) : Option FunDecl :=
  (declaredFunctions bindingsHeader).find? (fun d => d.name = n)

/-- The functions that hand back a byte buffer. -/
def bufferFunctions : List String :=
  ["pan_protocol_get_image", "pan_protocol_get_viewpoint_by_degrees_d",
   "pan_protocol_get_viewpoint_by_quaternion_s"]

/-! ## The header, read -/

/-- A prototype outside any linkage specification, from its return type, its
name and its parameters. -/
def prototype (ret : CType) (name : String) (params : List Param) : FunDecl :=
  ⟨ret, name, params, false, false⟩

/-- A parameter without a name. -/
def anon (t : CType) : Param := ⟨t, none⟩

/-- A parameter with a name. -/
def arg (t : CType) (n : String) : Param := ⟨t, some n⟩

/-- Line 4 of the header. -/
def safetyChecks : FunDecl := prototype CType.void "pan_protocol_safety_checks" []

/-- Lines 4 to 12 of the header, read by hand. -/
def bindings : List FunDecl := [
  safetyChecks,
  prototype CType.void "pan_protocol_start" [anon SOCKET],
  prototype CType.void "pan_protocol_finish" [anon SOCKET],
  prototype CType.unsignedCharPtr "pan_protocol_get_image" [anon SOCKET, anon CType.unsignedLongPtr],
  prototype CType.void "pan_protocol_set_viewpoint_by_angle"
    [anon SOCKET, anon CType.float, anon CType.float, anon CType.float, anon CType.float,
     anon CType.float, anon CType.float],
  prototype CType.void "pan_protocol_set_viewpoint_by_quaternion_s"
    [arg SOCKET "s", arg CType.float "x", arg CType.float "y", arg CType.float "z",
     arg CType.float "q0", arg CType.float "q1", arg CType.float "q2", arg CType.float "q3"],
  prototype CType.void "pan_protocol_set_field_of_view" [arg SOCKET "s", arg CType.float "f"],
  prototype CType.unsignedCharPtr "pan_protocol_get_viewpoint_by_degrees_d"
    [anon SOCKET, anon CType.double, anon CType.double, anon CType.double, anon CType.double,
     anon CType.double, anon CType.double, anon CType.unsignedLongPtr],
  prototype CType.unsignedCharPtr "pan_protocol_get_viewpoint_by_quaternion_s"
    [anon SOCKET, anon CType.float, anon CType.float, anon CType.float, anon CType.float,
     anon CType.float, anon CType.float, anon CType.float, anon CType.unsignedLongPtr]
]

/-- Lines 1 and 2 of the header, read by hand. -/
def handleTypedefs : List Typedef :=
  [⟨"UINT_PTR", CType.unsignedLongLong⟩, ⟨"SOCKET", UINT_PTR⟩]

/-! ## Reading the files -/

/-- The front end reads the header as its two typedefs followed by its nine
prototypes. -/
theorem parseFile_bindingsHeader :
    parseFile bindingsHeader
      = some (handleTypedefs.map Item.typedef ++ bindings.map Item.function) := by
  decide

/-- The functions the header declares are the nine prototypes of `bindings`. -/
theorem declaredFunctions_bindingsHeader : declaredFunctions bindingsHeader = bindings := by
  unfold declaredFunctions
  rw [parseFile_bindingsHeader]
  decide

/-- The typedefs the header declares are the two of `handleTypedefs`. -/
theorem declaredTypedefs_bindingsHeader : declaredTypedefs bindingsHeader = handleTypedefs := by
  unfold declaredTypedefs
  rw [parseFile_bindingsHeader]
  decide

/-- Outside its comments the placeholder has one line, an include directive,
and no token of code. -/
theorem parseFile_placeholderSource : parseFile placeholderSource = some [] := by
  decide

/-- The placeholder declares no function. -/
theorem declaredFunctions_placeholderSource : declaredFunctions placeholderSource = [] := by
  unfold declaredFunctions
  rw [parseFile_placeholderSource]
  rfl

/-- A property that holds of each prototype of `bindings` holds of every
function the header declares. -/
theorem forall_declared {P : FunDecl → Prop} (hP : ∀ d ∈ bindings, P d) :
    ∀ d ∈ declaredFunctions bindingsHeader, P d := by
  rw [declaredFunctions_bindingsHeader]
  exact hP

/-! ## The claims -/

/-- C1, as stated, fails: the list of function declarations of
`pan_protocol_lib_bindings.h` does not have length 10. -/
theorem header_length_not_ten : ¬ (declaredFunctions bindingsHeader).length = 10 := by
  rw [declaredFunctions_bindingsHeader]
  decide

/-- C1, amended: the header is read in full and the list of its function
declarations has length 9. -/
theorem header_declares_nine_functions :
    (parseFile bindingsHeader).isSome = true ∧ (declaredFunctions bindingsHeader).length = 9 := by
  rw [declaredFunctions_bindingsHeader, parseFile_bindingsHeader]
  decide

/-- C2, as stated, fails at `pan_protocol_safety_checks`: the header declares
it, its parameter list is empty (it is declared with `(void)`), so it has no
first parameter of type `SOCKET`. -/
theorem safety_checks_takes_no_handle :
    safetyChecks ∈ declaredFunctions bindingsHeader ∧
    safetyChecks.name = "pan_protocol_safety_checks" ∧
    safetyChecks.params = [] ∧
    ¬ (safetyChecks.params ≠ [] ∧ firstParamType safetyChecks = some SOCKET) := by
  rw [declaredFunctions_bindingsHeader]
  decide

/-- C2, amended: every function declared in the header other than
`pan_protocol_safety_checks` has a non-empty parameter list whose first
parameter has type `SOCKET`; `pan_protocol_safety_checks` has no parameter. -/
theorem handle_passed_first (d : FunDecl) (h : d ∈ declaredFunctions bindingsHeader) :
    (d.name = "pan_protocol_safety_checks" → d.params = []) ∧
    (d.name ≠ "pan_protocol_safety_checks" →
      d.params ≠ [] ∧ firstParamType d = some SOCKET) := by
  revert d
  rw [declaredFunctions_bindingsHeader]
  decide

/-- Witness of C2, amended, at `pan_protocol_start`. -/
theorem handle_passed_first_witness :
    prototype CType.void "pan_protocol_start" [anon SOCKET] ∈ declaredFunctions bindingsHeader ∧
    firstParamType (prototype CType.void "pan_protocol_start" [anon SOCKET]) = some SOCKET :=
  have hmem : prototype CType.void "pan_protocol_start" [anon SOCKET]
      ∈ declaredFunctions bindingsHeader := by
    rw [declaredFunctions_bindingsHeader]; decide
  ⟨hmem, ((handle_passed_first _ hmem).2 (by decide)).2⟩

/-- C3, as stated, fails at `pan_protocol_safety_checks`: the declaration is
not inside an `extern "C"` specification, in a C++ translation unit it does
not have C language linkage, and `pan_protocol_lib.cpp` does not include the
header. -/
theorem safety_checks_not_extern_c :
    safetyChecks ∈ declaredFunctions bindingsHeader ∧
    safetyChecks.externC = false ∧
    languageLinkage Language.cpp safetyChecks ≠ Language.c ∧
    bindingsHeaderName ∉ includes placeholderSource := by
  rw [declaredFunctions_bindingsHeader]
  decide

/-- C3, amended: no function declaration of the header is inside an
`extern "C"` specification; each has C language linkage when the header is
read as C and C++ language linkage when it is read as C++; the one file
`pan_protocol_lib.cpp` includes is `pan_protocol_lib.h`, not this header. -/
theorem declarations_without_linkage_specification (d : FunDecl)
    (h : d ∈ declaredFunctions bindingsHeader) :
    d.externC = false ∧
    languageLinkage Language.c d = Language.c ∧
    languageLinkage Language.cpp d = Language.cpp ∧
    includes placeholderSource = ["pan_protocol_lib.h"] ∧
    bindingsHeaderName ∉ includes placeholderSource := by
  revert d
  rw [declaredFunctions_bindingsHeader]
  decide

/-- Witness of C3, amended, at `pan_protocol_get_image`. -/
theorem declarations_without_linkage_specification_witness :
    prototype CType.unsignedCharPtr "pan_protocol_get_image" [anon SOCKET, anon CType.unsignedLongPtr]
      ∈ declaredFunctions bindingsHeader ∧
    languageLinkage Language.cpp
      (prototype CType.unsignedCharPtr "pan_protocol_get_image"
        [anon SOCKET, anon CType.unsignedLongPtr]) = Language.cpp :=
  have hmem : prototype CType.unsignedCharPtr "pan_protocol_get_image"
      [anon SOCKET, anon CType.unsignedLongPtr] ∈ declaredFunctions bindingsHeader := by
    rw [declaredFunctions_bindingsHeader]; decide
  ⟨hmem, (declarations_without_linkage_specification _ hmem).2.2.1⟩

/-- C4: a declared function returns `unsigned char *` if and only if its last
parameter has type `unsigned long *`, and if and only if it is one of
`pan_protocol_get_image`, `pan_protocol_get_viewpoint_by_degrees_d`,
`pan_protocol_get_viewpoint_by_quaternion_s`; the header declares all three. -/
theorem buffer_paired_with_length (d : FunDecl) (h : d ∈ declaredFunctions bindingsHeader) :
    (d.ret = CType.unsignedCharPtr ↔ lastParamType d = some CType.unsignedLongPtr) ∧
    (d.ret = CType.unsignedCharPtr ↔ d.name ∈ bufferFunctions) ∧
    ((declaredFunctions bindingsHeader).filter
        (fun f => f.ret = CType.unsignedCharPtr)).map FunDecl.name = bufferFunctions := by
  revert d
  rw [declaredFunctions_bindingsHeader]
  decide

/-- Witness of C4 at `pan_protocol_set_field_of_view`, which returns `void`
and whose last parameter is a `float`. -/
theorem buffer_paired_with_length_witness :
    prototype CType.void "pan_protocol_set_field_of_view" [arg SOCKET "s", arg CType.float "f"]
      ∈ declaredFunctions bindingsHeader ∧
    ((prototype CType.void "pan_protocol_set_field_of_view"
        [arg SOCKET "s", arg CType.float "f"]).ret = CType.unsignedCharPtr ↔
      lastParamType (prototype CType.void "pan_protocol_set_field_of_view"
        [arg SOCKET "s", arg CType.float "f"]) = some CType.unsignedLongPtr) :=
  have hmem : prototype CType.void "pan_protocol_set_field_of_view"
      [arg SOCKET "s", arg CType.float "f"] ∈ declaredFunctions bindingsHeader := by
    rw [declaredFunctions_bindingsHeader]; decide
  ⟨hmem, (buffer_paired_with_length _ hmem).1⟩

/-- C5: the header declares `UINT_PTR` as `unsigned long long` and `SOCKET` as
`UINT_PTR`; both names resolve to `unsigned long long`, which is unsigned; with
64 bits every value `h` of the handle type satisfies `0 ≤ h < 2^64`. -/
theorem handle_type_unsigned_alias (h : Int)
    (hh : holds 64 (resolve (declaredTypedefs bindingsHeader) SOCKET) h) :
    declaredTypedefs bindingsHeader
      = [⟨"UINT_PTR", CType.unsignedLongLong⟩, ⟨"SOCKET", UINT_PTR⟩] ∧
    resolve (declaredTypedefs bindingsHeader) UINT_PTR = CType.unsignedLongLong ∧
    resolve (declaredTypedefs bindingsHeader) SOCKET
      = resolve (declaredTypedefs bindingsHeader) UINT_PTR ∧
    isUnsigned (resolve (declaredTypedefs bindingsHeader) SOCKET) = true ∧
    0 ≤ h ∧ h < 2 ^ 64 := by
  rw [declaredTypedefs_bindingsHeader] at hh ⊢
  have hs : resolve handleTypedefs SOCKET = CType.unsignedLongLong := by decide
  have hu : isUnsigned CType.unsignedLongLong = true := by decide
  rw [hs] at hh
  unfold holds at hh
  rw [if_pos hu] at hh
  exact ⟨by decide, by decide, by decide, by decide, hh.1, hh.2⟩

/-- Witness of C5 at the largest handle value, `2^64 - 1`. -/
theorem handle_type_unsigned_alias_witness :
    holds 64 (resolve (declaredTypedefs bindingsHeader) SOCKET) 18446744073709551615 ∧
    (0 : Int) ≤ 18446744073709551615 ∧ (18446744073709551615 : Int) < 2 ^ 64 :=
  have hh : holds 64 (resolve (declaredTypedefs bindingsHeader) SOCKET) 18446744073709551615 := by
    rw [declaredTypedefs_bindingsHeader]
    have hs : resolve handleTypedefs SOCKET = CType.unsignedLongLong := by decide
    have hu : isUnsigned CType.unsignedLongLong = true := by decide
    rw [hs]
    unfold holds
    rw [if_pos hu]
    constructor <;> norm_num
  ⟨hh, (handle_type_unsigned_alias _ hh).2.2.2.2⟩

/-- C6: the names the header declares are, in order, the nine operations the
spec lists, and no name is declared twice. -/
theorem declared_operations :
    (declaredFunctions bindingsHeader).map FunDecl.name =
      ["pan_protocol_safety_checks", "pan_protocol_start", "pan_protocol_finish",
       "pan_protocol_get_image", "pan_protocol_set_viewpoint_by_angle",
       "pan_protocol_set_viewpoint_by_quaternion_s", "pan_protocol_set_field_of_view",
       "pan_protocol_get_viewpoint_by_degrees_d",
       "pan_protocol_get_viewpoint_by_quaternion_s"] ∧
    ((declaredFunctions bindingsHeader).map FunDecl.name).Nodup := by
  rw [declaredFunctions_bindingsHeader]
  decide

/-- C7: no declared function has a body in the header, none is defined in
`pan_protocol_lib.cpp`, both files are read in full, and the list of the
functions defined in the repository is empty. -/
theorem no_function_body (d : FunDecl) (h : d ∈ declaredFunctions bindingsHeader) :
    d.hasBody = false ∧
    d.name ∉ (definedFunctions bindingsHeader).map FunDecl.name ∧
    d.name ∉ (definedFunctions placeholderSource).map FunDecl.name ∧
    (∀ file ∈ repository, (parseFile file).isSome = true) ∧
    definedInRepository = [] := by
  have hb : definedFunctions bindingsHeader = [] := by
    unfold definedFunctions
    rw [declaredFunctions_bindingsHeader]
    decide
  have hp : definedFunctions placeholderSource = [] := by
    unfold definedFunctions
    rw [declaredFunctions_placeholderSource]
    rfl
  refine ⟨forall_declared (P := fun d => d.hasBody = false) (by decide) d h, ?_, ?_, ?_, ?_⟩
  · rw [hb]; simp
  · rw [hp]; simp
  · intro file hf
    simp only [repository, List.mem_cons, List.mem_singleton, List.not_mem_nil, or_false] at hf
    rcases hf with rfl | rfl
    · rw [parseFile_bindingsHeader]; rfl
    · rw [parseFile_placeholderSource]; rfl
  · simp [definedInRepository, repository, hb, hp]

/-- Witness of C7 at `pan_protocol_finish`. -/
theorem no_function_body_witness :
    prototype CType.void "pan_protocol_finish" [anon SOCKET] ∈ declaredFunctions bindingsHeader ∧
    (prototype CType.void "pan_protocol_finish" [anon SOCKET]).hasBody = false ∧
    definedInRepository = [] :=
  have hmem : prototype CType.void "pan_protocol_finish" [anon SOCKET]
      ∈ declaredFunctions bindingsHeader := by
    rw [declaredFunctions_bindingsHeader]; decide
  ⟨hmem, (no_function_body _ hmem).1, (no_function_body _ hmem).2.2.2.2⟩

/-- C8: every declared function returns `void` or `unsigned char *`, none
returns an integer type (typedefs resolved), and a parameter of pointer type is
always the `unsigned long *` that ends the parameter list of one of the three
buffer-returning functions. -/
theorem no_failure_reporting (d : FunDecl) (h : d ∈ declaredFunctions bindingsHeader) :
    (d.ret = CType.void ∨ d.ret = CType.unsignedCharPtr) ∧
    isInteger (resolve (declaredTypedefs bindingsHeader) d.ret) = false ∧
    ∀ p ∈ d.params, isPointer (resolve (declaredTypedefs bindingsHeader) p.type) = true →
      p.type = CType.unsignedLongPtr ∧ d.params.getLast? = some p ∧
      d.name ∈ bufferFunctions := by
  revert d
  rw [declaredFunctions_bindingsHeader, declaredTypedefs_bindingsHeader]
  decide

/-- Witness of C8 at `pan_protocol_get_viewpoint_by_degrees_d`, whose one
pointer parameter is the trailing `unsigned long *`. -/
theorem no_failure_reporting_witness :
    prototype CType.unsignedCharPtr "pan_protocol_get_viewpoint_by_degrees_d"
        [anon SOCKET, anon CType.double, anon CType.double, anon CType.double, anon CType.double,
         anon CType.double, anon CType.double, anon CType.unsignedLongPtr]
      ∈ declaredFunctions bindingsHeader ∧
    isInteger (resolve (declaredTypedefs bindingsHeader) CType.unsignedCharPtr) = false :=
  have hmem : prototype CType.unsignedCharPtr "pan_protocol_get_viewpoint_by_degrees_d"
      [anon SOCKET, anon CType.double, anon CType.double, anon CType.double, anon CType.double,
       anon CType.double, anon CType.double, anon CType.unsignedLongPtr]
      ∈ declaredFunctions bindingsHeader := by
    rw [declaredFunctions_bindingsHeader]; decide
  ⟨hmem, (no_failure_reporting _ hmem).2.1⟩

/-- C9, as stated, fails at line 7 of `pan_protocol_lib.cpp`: the line is not
blank, it does not lie inside a comment, and it is a preprocessor directive,
so the file has one. -/
theorem placeholder_line_seven_is_directive :
    (lineKinds placeholderSource)[6]? = some LineKind.directive ∧
    ¬ (∀ k ∈ lineKinds placeholderSource, k ≠ LineKind.blank → k = LineKind.comment) ∧
    directives placeholderSource ≠ [] := by
  decide

/-- C9, amended: lines 1 to 6 and 9 to 11 of `pan_protocol_lib.cpp` lie inside
a comment, lines 8 and 12 are blank, line 7 is the one preprocessor directive
of the file, `#include "pan_protocol_lib.h"`; outside its comments the file has
no token of code, hence no declaration and no definition. -/
theorem placeholder_comments_and_one_include :
    lineKinds placeholderSource =
      [LineKind.comment, LineKind.comment, LineKind.comment, LineKind.comment,
       LineKind.comment, LineKind.comment, LineKind.directive, LineKind.blank,
       LineKind.comment, LineKind.comment, LineKind.comment, LineKind.blank] ∧
    directives placeholderSource =
      [[Token.sym '#', Token.word "include", Token.str "pan_protocol_lib.h"]] ∧
    codeTokens placeholderSource = [] ∧
    parseFile placeholderSource = some [] ∧
    declaredFunctions placeholderSource = [] ∧
    definedFunctions placeholderSource = [] := by
  decide

/-- C10: after the `SOCKET`, `pan_protocol_set_viewpoint_by_angle` takes six
`float` and `pan_protocol_get_viewpoint_by_degrees_d` six `double` followed by
the `unsigned long *`; `pan_protocol_set_viewpoint_by_quaternion_s` takes seven
`float` and `pan_protocol_get_viewpoint_by_quaternion_s` seven `float` followed
by the `unsigned long *`.  Each getter has as many floating-point parameters as
its setter. -/
theorem getters_match_setters :
    (findDecl "pan_protocol_set_viewpoint_by_angle").map paramTypes
      = some (SOCKET :: List.replicate 6 CType.float) ∧
    (findDecl "pan_protocol_get_viewpoint_by_degrees_d").map paramTypes
      = some (SOCKET :: (List.replicate 6 CType.double ++ [CType.unsignedLongPtr])) ∧
    (findDecl "pan_protocol_set_viewpoint_by_quaternion_s").map paramTypes
      = some (SOCKET :: List.replicate 7 CType.float) ∧
    (findDecl "pan_protocol_get_viewpoint_by_quaternion_s").map paramTypes
      = some (SOCKET :: (List.replicate 7 CType.float ++ [CType.unsignedLongPtr])) ∧
    (findDecl "pan_protocol_get_viewpoint_by_degrees_d").map (fun d => (floatingParams d).length)
      = some 6 ∧
    (findDecl "pan_protocol_set_viewpoint_by_angle").map (fun d => (floatingParams d).length)
      = some 6 ∧
    (findDecl "pan_protocol_get_viewpoint_by_quaternion_s").map
      (fun d => (floatingParams d).length) = some 7 ∧
    (findDecl "pan_protocol_set_viewpoint_by_quaternion_s").map
      (fun d => (floatingParams d).length) = some 7 := by
  unfold findDecl
  rw [declaredFunctions_bindingsHeader]
  decide

end PanProtocol
